import Mathlib

/-!
Verification of the UCF protocol core: deterministic canonical serialization,
content-addressed digest chain, and proof-receipt issuance with a temporary
VRF.  The Rust sources are shallowly embedded: byte strings become `List Nat`,
fixed 32-byte arrays become a subtype, and the external cryptographic
primitives (BLAKE3, SHA-512, Ed25519 from the `blake3`, `sha2` and
`ed25519-dalek` crates) are abstracted as fields of a `Crypto` bundle, since
their internals are not part of this repository.  Every repository function is
translated statement by statement from the Rust source.
-/

namespace UCF

/-- A Rust byte string (`Vec<u8>` / `&[u8]` / the UTF-8 bytes of a `str`). -/
abbrev Bytes : Type := List Nat

/-- A Rust `[u8; 32]` fixed-size array. -/
abbrev Bytes32 : Type := { l : Bytes // l.length = 32 }

/-- ASCII bytes of a string literal (all literals in the sources are ASCII). -/
def asc (s : String) : Bytes := s.data.map Char.toNat

/-- Rust `u64::to_le_bytes`: the eight little-endian base-256 digits of `n`. -/
def le_u64 (n : Nat) : Bytes :=
  [n % 256, n / 256 % 256, n / 256 ^ 2 % 256, n / 256 ^ 3 % 256,
   n / 256 ^ 4 % 256, n / 256 ^ 5 % 256, n / 256 ^ 6 % 256, n / 256 ^ 7 % 256]

/-- The external cryptographic primitives used by the repository, abstracted:
`blake3` is `blake3::Hasher` finalization (32 bytes by construction),
`sha512` is `sha2::Sha512::digest`, `ed_sign` is deterministic Ed25519
signing of a message under a 32-byte seed key, and `ed_pub` derives the
32-byte verifying key from a 32-byte seed key. -/
structure Crypto where
  blake3 : Bytes → Bytes32
  sha512 : Bytes → Bytes
  ed_sign : Bytes32 → Bytes → Bytes
  ed_pub : Bytes32 → Bytes32

/-- Rust `blake3::Hasher` state: accumulates input bytes in order. -/
structure Hasher where
  buf : Bytes

/-- Constructor `blake3::Hasher::new()`. -/
def Hasher.new : Hasher := ⟨[]⟩

/-- Method `Hasher::update`: appends the bytes to the accumulated input. -/
def Hasher.update (h : Hasher) (b : Bytes) : Hasher := ⟨h.buf ++ b⟩

/-- Method `Hasher::finalize`: BLAKE3 of the accumulated input. -/
def Hasher.finalize (C : Crypto) (h : Hasher) : Bytes32 := C.blake3 h.buf

/-- Function `ucf_protocol::digest32` (src/src/lib.rs): BLAKE3 over
domain, schema id, schema version and payload bytes fed to one hasher. -/
def digest32 (C : Crypto) (domain schema_id schema_version : Bytes)
    (bytes : Bytes) : Bytes32 :=
  ((((Hasher.new.update domain).update schema_id).update
      schema_version).update bytes).finalize C

/-- The exact byte string `digest32` feeds to BLAKE3. -/
def digest32_preimage (domain schema_id schema_version bytes : Bytes) : Bytes :=
  domain ++ schema_id ++ schema_version ++ bytes

theorem digest32_eq_blake3 (C : Crypto) (domain schema_id schema_version bytes : Bytes) :
    digest32 C domain schema_id schema_version bytes =
      C.blake3 (digest32_preimage domain schema_id schema_version bytes) := by
  simp [digest32, digest32_preimage, Hasher.new, Hasher.update, Hasher.finalize,
    List.append_assoc]

/-- Function `ucf_pvgs::record_digest_from_components` (src/crates/pvgs/src/lib.rs):
BLAKE3 over verified-fields digest, previous record digest and commit id. -/
def record_digest_from_components (C : Crypto)
    (verified_fields_digest prev_record_digest : Bytes32)
    (commit_id : Bytes) : Bytes32 :=
  (((Hasher.new.update verified_fields_digest.val).update
      prev_record_digest.val).update commit_id).finalize C

/-- The VRF domain constant `VRF_DOMAIN` (src/crates/vrf/src/lib.rs). -/
def VRF_DOMAIN : Bytes := asc "UCF:VRF:EXPERIENCE_RECORD"

/-- The `TEMPORARY_VRF_LABEL` constant (src/crates/vrf/src/lib.rs). -/
def TEMPORARY_VRF_LABEL : Bytes := asc "TEMPORARY_VRF"

/-- One lowercase hexadecimal digit as an ASCII code. -/
def hex_digit (n : Nat) : Nat := if n < 10 then 48 + n else 87 + n

/-- Function `hex::encode`: two lowercase hex digits per byte, in order. -/
def hex_encode (b : Bytes) : Bytes :=
  b.flatMap fun x => [hex_digit (x / 16), hex_digit (x % 16)]

/-- Struct `ucf_vrf::VrfKeypair` (src/crates/vrf/src/lib.rs); `key_id` is a Rust
`String`, kept as its bytes. -/
structure VrfKeypair where
  key_id : Bytes
  epoch_id : Nat
  vrf_pk : Bytes
  vrf_sk : Bytes

/-- Struct `ucf_vrf::VrfEngine`: an `ed25519_dalek::SigningKey` (identified with its
32-byte seed, as `SigningKey::from_bytes`/`to_bytes` do) plus key metadata. -/
structure VrfEngine where
  signing_key : Bytes32
  current : VrfKeypair

/-- Constructor `VrfEngine::new_dev`: seed = BLAKE3 of the dev domain and the
little-endian epoch id; the key id is the temporary label, a colon (ASCII 58),
and the lowercase hex of the first 8 bytes of the verifying key. -/
def VrfEngine.new_dev (C : Crypto) (epoch_id : Nat) : VrfEngine :=
  let seed := ((Hasher.new.update (asc "UCF:VRF:DEV")).update
      (le_u64 epoch_id)).finalize C
  let signing_key := seed
  let verifying_key := C.ed_pub signing_key
  let key_id := TEMPORARY_VRF_LABEL ++ [58] ++ hex_encode (verifying_key.val.take 8)
  { signing_key := signing_key
    current :=
      { key_id := key_id
        epoch_id := epoch_id
        vrf_pk := verifying_key.val
        vrf_sk := signing_key.val } }

/-- Method `VrfEngine::current_epoch`. -/
def VrfEngine.current_epoch (e : VrfEngine) : Nat := e.current.epoch_id

/-- Method `VrfEngine::vrf_public_key`. -/
def VrfEngine.vrf_public_key (e : VrfEngine) : Bytes := e.current.vrf_pk

/-- Method `VrfEngine::build_message`: domain, previous record digest, record digest,
charter digest bytes, profile digest, little-endian epoch id, in that order. -/
def VrfEngine.build_message (_e : VrfEngine)
    (prev_record_digest record_digest : Bytes32) (charter_digest : Bytes)
    (profile_digest : Bytes32) (epoch_id : Nat) : Bytes :=
  VRF_DOMAIN ++ prev_record_digest.val ++ record_digest.val ++
    charter_digest ++ profile_digest.val ++ le_u64 epoch_id

/-- Function `digest_signature` (src/crates/vrf/src/lib.rs): BLAKE3 of the SHA-512 of
the 64 signature bytes. -/
def digest_signature (C : Crypto) (signature : Bytes) : Bytes32 :=
  (Hasher.new.update (C.sha512 signature)).finalize C

/-- Method `VrfEngine::eval_record_vrf`: sign the built message with the engine key,
then hash the signature. -/
def VrfEngine.eval_record_vrf (C : Crypto) (e : VrfEngine)
    (prev_record_digest record_digest : Bytes32) (charter_digest : Bytes)
    (profile_digest : Bytes32) (epoch_id : Nat) : Bytes32 :=
  let message := e.build_message prev_record_digest record_digest
    charter_digest profile_digest epoch_id
  let signature := C.ed_sign e.signing_key message
  digest_signature C signature

/-- Protobuf message `ucf.v1.Digest32`, a wrapper (`value: Vec<u8>`). -/
structure Digest32 where
  value : Bytes
deriving DecidableEq

/-- Protobuf message `ucf.v1.Signature` with algorithm, signer and signature bytes; `algorithm` is a
Rust `String`, kept as its bytes. -/
structure Signature where
  algorithm : Bytes
  signer : Bytes
  signature : Bytes
deriving DecidableEq

/-- Modelled from the spec: the `ucf.v1.ReceiptStatus` protobuf enum is
generated from a schema file that is not under src/; the spec lists
`status ∈ {Accepted, Pending, Rejected, …}`.  The `as i32` cast applied by
`issue_proof_receipt` is injective on enum values and is modelled as the
identity on this inductive. -/
inductive ReceiptStatus where
  | Unspecified
  | Accepted
  | Pending
  | Rejected
deriving DecidableEq

/-- Protobuf message `ucf.v1.ProofReceipt` as used by `issue_proof_receipt`
(src/crates/pvgs/src/lib.rs): optional digest wrappers and an optional
validator signature. -/
structure ProofReceipt where
  status : ReceiptStatus
  receipt_digest : Option Digest32
  validator : Option Signature
  vrf_digest : Option Digest32
deriving DecidableEq

/-- Struct `ucf_pvgs::ProofReceiptInputs` (src/crates/pvgs/src/lib.rs). -/
structure ProofReceiptInputs where
  status : ReceiptStatus
  receipt_digest : Bytes32
  verified_fields_digest : Bytes32
  prev_record_digest : Bytes32
  charter_digest : Bytes
  profile_digest : Bytes32
  commit_id : Bytes
  epoch_id : Nat
  validator : Signature

/-- Struct `ucf_pvgs::ProofReceiptIssuer`. -/
structure ProofReceiptIssuer where
  vrf_engine : VrfEngine

/-- Method `ProofReceiptIssuer::issue_proof_receipt`: chain the verified-fields
digest, evaluate the VRF on the chained digest, and assemble the receipt.
The function is total: it returns a `ProofReceipt` for every input. -/
def ProofReceiptIssuer.issue_proof_receipt (C : Crypto)
    (issuer : ProofReceiptIssuer) (inputs : ProofReceiptInputs) : ProofReceipt :=
  let record_digest := record_digest_from_components C
    inputs.verified_fields_digest inputs.prev_record_digest inputs.commit_id
  let vrf_digest := issuer.vrf_engine.eval_record_vrf C
    inputs.prev_record_digest record_digest inputs.charter_digest
    inputs.profile_digest inputs.epoch_id
  { status := inputs.status
    receipt_digest := some ⟨inputs.receipt_digest.val⟩
    validator := some inputs.validator
    vrf_digest := some ⟨vrf_digest.val⟩ }

/-- Modelled from the spec: the canonical wire encoder is `prost`'s generated
code for schema files that are not under src/ (a tag-ordered,
length-delimited protobuf wire format per spec section 4.1).  This is the
LEB128 varint encoder used for lengths: seven value bits per byte, least
significant group first, high bit set on every byte but the last. -/
def varint_encode (n : Nat) : Bytes :=
  if h : n < 128 then [n]
  else
    have : n / 128 < n := Nat.div_lt_self (lt_of_lt_of_le (by norm_num) (le_of_not_lt h)) (by norm_num)
    (n % 128 + 128) :: varint_encode (n / 128)

/-- Modelled from the spec: LEB128 varint decoder, returning the value and
the remaining bytes, or `none` on truncated input. -/
def varint_decode : Bytes → Option (Nat × Bytes)
  | [] => none
  | b :: rest =>
    if b < 128 then some (b, rest)
    else
      match varint_decode rest with
      | some (n, r) => some (n * 128 + (b - 128), r)
      | none => none

/-- Modelled from the spec: the `ucf.v1.ReasonCodes` record
(`repeated string codes = 1`), whose generated type is not under src/; each
code is kept as its UTF-8 bytes. -/
structure ReasonCodes where
  codes : List Bytes
deriving DecidableEq

/-- Modelled from the spec: `ucf_protocol::canonical_bytes` instantiated at
`ReasonCodes` — `prost` emits each repeated element in order as the field-1
length-delimited tag byte 0x0A, the LEB128 length, then the code bytes;
an absent (empty) repeated field is elided. -/
def canonical_bytes_reason_codes (m : ReasonCodes) : Bytes :=
  m.codes.flatMap fun c => 10 :: (varint_encode c.length ++ c)

/-- Modelled from the spec: field-by-field wire parsing loop for
`ReasonCodes`, fueled by the input length; rejects any tag other than 0x0A
and any truncated length-delimited payload. -/
def decode_reason_codes_aux : Nat → Bytes → Option (List Bytes)
  | _, [] => some []
  | 0, _ :: _ => none
  | fuel + 1, t :: rest =>
    if t = 10 then
      match varint_decode rest with
      | some (len, r) =>
        if len ≤ r.length then
          match decode_reason_codes_aux fuel (r.drop len) with
          | some codes => some (r.take len :: codes)
          | none => none
        else none
      | none => none
    else none

/-- Modelled from the spec: `prost::Message::decode` instantiated at
`ReasonCodes`. -/
def decode_reason_codes (b : Bytes) : Option ReasonCodes :=
  (decode_reason_codes_aux b.length b).map ReasonCodes.mk

/-- The `(domain, schema_id, schema_version)` triples registered by the
repository's determinism suite (src/tests/determinism.rs): every
`verify_case` / `verify_case_with_domain` call pairs one domain constant with
one schema constant under `VERSION = "1"`. -/
def registry_triples : List (Bytes × Bytes × Bytes) :=
  [(asc "ucf-core", asc "ucf.v1.ReasonCodes", asc "1"),
   (asc "ucf-core", asc "ucf.v1.UcfEnvelope", asc "1"),
   (asc "ucf-core", asc "ucf.v1.CanonicalIntent", asc "1"),
   (asc "ucf-core", asc "ucf.v1.PolicyDecision", asc "1"),
   (asc "ucf-core", asc "ucf.v1.PVGSReceipt", asc "1"),
   (asc "ucf-core", asc "ucf.v1.SignalFrame", asc "1"),
   (asc "ucf-core", asc "ucf.v1.ControlFrame", asc "1"),
   (asc "ucf-core", asc "ucf.v1.ExperienceRecord", asc "1"),
   (asc "ucf-core", asc "ucf.v1.MicroMilestone", asc "1"),
   (asc "ucf-core", asc "ucf.v1.MesoMilestone", asc "1"),
   (asc "ucf-core", asc "ucf.v1.MacroMilestone", asc "1"),
   (asc "ucf-core", asc "ucf.v1.ReplayPlan", asc "1"),
   (asc "ucf-core", asc "ucf.v1.ReplayRunEvidence", asc "1"),
   (asc "ucf-core", asc "ucf.v1.ConsistencyFeedback", asc "1"),
   (asc "ucf-core", asc "ucf.v1.ToolRegistryContainer", asc "1"),
   (asc "ucf-core", asc "ucf.v1.ToolOnboardingEvent", asc "1"),
   (asc "ucf-core", asc "ucf.v1.ApprovalArtifactPackage", asc "1"),
   (asc "ucf-core", asc "ucf.v1.ApprovalDecision", asc "1"),
   (asc "ucf-core", asc "ucf.v1.SepEvent", asc "1"),
   (asc "ucf-core", asc "ucf.v1.SessionSeal", asc "1"),
   (asc "ucf-core", asc "ucf.v1.CompletenessReport", asc "1"),
   (asc "UCF:HASH:MC_CONFIG", asc "ucf.v1.MicrocircuitConfigEvidence", asc "1"),
   (asc "UCF:ASSET:MORPH", asc "ucf.v1.AssetDigest", asc "1"),
   (asc "UCF:ASSET:MORPH", asc "ucf.v1.MorphologySetPayload", asc "1"),
   (asc "UCF:ASSET:CHANNEL_PARAMS", asc "ucf.v1.ChannelParamsSetPayload", asc "1"),
   (asc "UCF:ASSET:SYN_PARAMS", asc "ucf.v1.SynapseParamsSetPayload", asc "1"),
   (asc "UCF:ASSET:CONNECTIVITY", asc "ucf.v1.ConnectivityGraphPayload", asc "1"),
   (asc "UCF:ASSET:MANIFEST", asc "ucf.v1.AssetManifest", asc "1")]

/-- The header a triple contributes to every `digest32` preimage. -/
def triple_header (t : Bytes × Bytes × Bytes) : Bytes := t.1 ++ t.2.1 ++ t.2.2

/-- A concrete, trivial instantiation of the abstract crypto primitives, used
only to evaluate the embedding at concrete inputs. -/
def zero32 : Bytes32 := ⟨List.replicate 32 0, by simp⟩

/-- Trivial primitive bundle: constant BLAKE3, identity SHA-512, signing
returns the message, public key equals the seed. -/
def trivial_crypto : Crypto :=
  { blake3 := fun _ => zero32
    sha512 := fun b => b
    ed_sign := fun _ m => m
    ed_pub := fun k => k }

/-- Claim C1: for every input bundle, the receipt issued by
`issue_proof_receipt` carries a `vrf_digest` equal to `eval_record_vrf`
applied to the previous record digest, the record digest recomputed by
`record_digest_from_components` from the verified-fields digest, previous
record digest and commit id, the charter digest, the profile digest and the
epoch id; and its status, receipt digest and validator fields are the inputs
unchanged. -/
theorem C1_receipt_closure (C : Crypto) (issuer : ProofReceiptIssuer)
    (inputs : ProofReceiptInputs) :
    (issuer.issue_proof_receipt C inputs).vrf_digest =
      some ⟨(issuer.vrf_engine.eval_record_vrf C inputs.prev_record_digest
        (record_digest_from_components C inputs.verified_fields_digest
          inputs.prev_record_digest inputs.commit_id)
        inputs.charter_digest inputs.profile_digest inputs.epoch_id).val⟩ ∧
    (issuer.issue_proof_receipt C inputs).status = inputs.status ∧
    (issuer.issue_proof_receipt C inputs).receipt_digest =
      some ⟨inputs.receipt_digest.val⟩ ∧
    (issuer.issue_proof_receipt C inputs).validator = some inputs.validator :=
  ⟨rfl, rfl, rfl, rfl⟩

/-- Claim C2: `digest32` returns exactly the 32-byte BLAKE3 hash of the raw
byte concatenation domain, schema id, schema version, payload — with no
length prefixes or separators between the components. -/
theorem C2_digest32_is_raw_concatenation (C : Crypto)
    (domain schema_id schema_version bytes : Bytes) :
    digest32 C domain schema_id schema_version bytes =
      C.blake3 (domain ++ schema_id ++ schema_version ++ bytes) ∧
    (digest32 C domain schema_id schema_version bytes).val.length = 32 := by
  refine ⟨?_, (digest32 C domain schema_id schema_version bytes).property⟩
  simp [digest32, Hasher.new, Hasher.update, Hasher.finalize, List.append_assoc]

/-- Claim C3: `record_digest_from_components` equals the 32-byte BLAKE3 hash
of the raw concatenation of the verified-fields digest, the previous record
digest and the commit id. -/
theorem C3_record_digest_from_components (C : Crypto)
    (verified_fields_digest prev_record_digest : Bytes32) (commit_id : Bytes) :
    record_digest_from_components C verified_fields_digest prev_record_digest
        commit_id =
      C.blake3 (verified_fields_digest.val ++ prev_record_digest.val ++ commit_id) ∧
    (record_digest_from_components C verified_fields_digest prev_record_digest
        commit_id).val.length = 32 := by
  refine ⟨?_, (record_digest_from_components C verified_fields_digest
    prev_record_digest commit_id).property⟩
  simp [record_digest_from_components, Hasher.new, Hasher.update,
    Hasher.finalize, List.append_assoc]

/-- Claim C4: `eval_record_vrf` builds the preimage
domain label, previous record digest, record digest, charter-digest bytes,
profile digest, little-endian epoch id, signs it with the engine's Ed25519
key, and returns the 32-byte tag BLAKE3(SHA-512(signature)). -/
theorem C4_eval_record_vrf_construction (C : Crypto) (e : VrfEngine)
    (prev_record_digest record_digest : Bytes32) (charter_digest : Bytes)
    (profile_digest : Bytes32) (epoch_id : Nat) :
    e.eval_record_vrf C prev_record_digest record_digest charter_digest
        profile_digest epoch_id =
      C.blake3 (C.sha512 (C.ed_sign e.signing_key
        (asc "UCF:VRF:EXPERIENCE_RECORD" ++ prev_record_digest.val ++
          record_digest.val ++ charter_digest ++ profile_digest.val ++
          le_u64 epoch_id))) ∧
    (e.eval_record_vrf C prev_record_digest record_digest charter_digest
        profile_digest epoch_id).val.length = 32 := by
  refine ⟨?_, (e.eval_record_vrf C prev_record_digest record_digest
    charter_digest profile_digest epoch_id).property⟩
  simp [VrfEngine.eval_record_vrf, VrfEngine.build_message, digest_signature,
    Hasher.new, Hasher.update, Hasher.finalize, VRF_DOMAIN]

/-- Claim C8: the VRF tag is a deterministic function of the engine's signing
key and the five inputs — any two engines holding the same signing key
(in particular the same engine called twice) return the same tag on identical
inputs, whatever the rest of their key metadata. -/
theorem C8_vrf_determinism (C : Crypto) (key : Bytes32)
    (cur1 cur2 : VrfKeypair) (prev_record_digest record_digest : Bytes32)
    (charter_digest : Bytes) (profile_digest : Bytes32) (epoch_id : Nat) :
    VrfEngine.eval_record_vrf C ⟨key, cur1⟩ prev_record_digest record_digest
        charter_digest profile_digest epoch_id =
      VrfEngine.eval_record_vrf C ⟨key, cur2⟩ prev_record_digest record_digest
        charter_digest profile_digest epoch_id := rfl

/-- Claim C9: `new_dev` derives the Ed25519 seed as BLAKE3 of the dev domain
label followed by the little-endian epoch id, sets the key id to the
temporary label, a colon, and the lowercase hex of the first 8 bytes of the
derived public key, and `current_epoch` returns the construction epoch. -/
theorem C9_new_dev_derivation (C : Crypto) (epoch_id : Nat) :
    (VrfEngine.new_dev C epoch_id).signing_key =
      C.blake3 (asc "UCF:VRF:DEV" ++ le_u64 epoch_id) ∧
    (VrfEngine.new_dev C epoch_id).current.key_id =
      asc "TEMPORARY_VRF" ++ [58] ++
        hex_encode ((C.ed_pub
          (C.blake3 (asc "UCF:VRF:DEV" ++ le_u64 epoch_id))).val.take 8) ∧
    (VrfEngine.new_dev C epoch_id).current_epoch = epoch_id := by
  refine ⟨?_, ?_, rfl⟩ <;>
    simp [VrfEngine.new_dev, Hasher.new, Hasher.update, Hasher.finalize,
      TEMPORARY_VRF_LABEL]

/-- Claim C10: every issued receipt has both `receipt_digest` and
`vrf_digest` populated with a value of exactly 32 bytes. -/
theorem C10_receipt_digests_populated (C : Crypto) (issuer : ProofReceiptIssuer)
    (inputs : ProofReceiptInputs) :
    ∃ rd vd, (issuer.issue_proof_receipt C inputs).receipt_digest = some rd ∧
      rd.value.length = 32 ∧
      (issuer.issue_proof_receipt C inputs).vrf_digest = some vd ∧
      vd.value.length = 32 :=
  ⟨_, _, rfl, inputs.receipt_digest.property, rfl,
    (issuer.vrf_engine.eval_record_vrf C inputs.prev_record_digest
      (record_digest_from_components C inputs.verified_fields_digest
        inputs.prev_record_digest inputs.commit_id)
      inputs.charter_digest inputs.profile_digest inputs.epoch_id).property⟩

/-- The placeholder validator signature used by the pvgs test module. -/
def sample_validator : Signature :=
  ⟨asc "ed25519", List.replicate 32 170, List.replicate 64 187⟩

/-- Concrete receipt inputs whose `epoch_id` (7) differs from the epoch (5)
of the engine they are issued under. -/
def mismatched_inputs : ProofReceiptInputs :=
  { status := ReceiptStatus.Accepted
    receipt_digest := zero32
    verified_fields_digest := zero32
    prev_record_digest := zero32
    charter_digest := asc "charter-digest"
    profile_digest := zero32
    commit_id := asc "commit-abc123"
    epoch_id := 7
    validator := sample_validator }

/-- Claim C7 counterexample: with the issuing engine at epoch 5 and the
input `epoch_id` at 7, `issue_proof_receipt` does not surface any error — it
returns an ordinary, fully populated `ProofReceipt` (its return type has no
error case at all). -/
theorem C7_counterexample :
    mismatched_inputs.epoch_id ≠
      (VrfEngine.new_dev trivial_crypto 5).current.epoch_id ∧
    (ProofReceiptIssuer.mk (VrfEngine.new_dev trivial_crypto 5)).issue_proof_receipt
        trivial_crypto mismatched_inputs =
      { status := ReceiptStatus.Accepted
        receipt_digest := some ⟨List.replicate 32 0⟩
        validator := some sample_validator
        vrf_digest := some ⟨List.replicate 32 0⟩ } := by
  constructor
  · decide
  · rfl

/-- Claim C7 as amended: `issue_proof_receipt` never returns an error.  It is
a total function into `ProofReceipt`: even when the issuing engine's key
epoch differs from the `epoch_id` input it still assembles a receipt with
status, receipt digest, validator and VRF digest populated; a wrong-length
verified-fields digest is unrepresentable (the field is a fixed 32-byte
array) and `eval_record_vrf` is infallible, so no `EpochMismatch`,
`InvalidVerifiedFieldsDigest` or `VrfUnavailable` error exists in the code. -/
theorem C7_issuance_is_total (C : Crypto) (issuer : ProofReceiptIssuer)
    (inputs : ProofReceiptInputs)
    (_h : inputs.epoch_id ≠ issuer.vrf_engine.current.epoch_id) :
    (issuer.issue_proof_receipt C inputs).receipt_digest.isSome = true ∧
    (issuer.issue_proof_receipt C inputs).validator.isSome = true ∧
    (issuer.issue_proof_receipt C inputs).vrf_digest.isSome = true ∧
    (issuer.issue_proof_receipt C inputs).status = inputs.status :=
  ⟨rfl, rfl, rfl, rfl⟩

/-- Claim C7 witness: the amended theorem applied at the concrete
epoch-mismatched input. -/
theorem C7_issuance_is_total_witness :
    ((ProofReceiptIssuer.mk (VrfEngine.new_dev trivial_crypto 5)).issue_proof_receipt
        trivial_crypto mismatched_inputs).vrf_digest.isSome = true :=
  (C7_issuance_is_total trivial_crypto
    (ProofReceiptIssuer.mk (VrfEngine.new_dev trivial_crypto 5))
    mismatched_inputs (by decide)).2.2.1

theorem digest32_preimage_header (t : Bytes × Bytes × Bytes) (b : Bytes) :
    digest32_preimage t.1 t.2.1 t.2.2 b = triple_header t ++ b := by
  simp [digest32_preimage, triple_header, List.append_assoc]

theorem take_len_of_append_eq {h1 b1 h2 b2 : Bytes}
    (heq : h1 ++ b1 = h2 ++ b2) (hle : h1.length ≤ h2.length) :
    h2.take h1.length = h1 := by
  have h := congrArg (fun l => List.take h1.length l) heq
  simp only [List.take_left] at h
  rw [List.take_append_of_le_length hle] at h
  exact h.symm

set_option maxHeartbeats 1000000 in
theorem registry_headers_separated :
    ∀ t1 ∈ registry_triples, ∀ t2 ∈ registry_triples,
      t1 ≠ t2 →
        (triple_header t2).take (triple_header t1).length ≠ triple_header t1 := by
  decide

/-- Claim C6 counterexample: over arbitrary component strings the raw
concatenation is ambiguous — the two distinct triples
("ab", "c", "1") and ("a", "bc", "1") produce the same `digest32` preimage
for the empty message, because no length prefix or separator is inserted. -/
theorem C6_counterexample :
    ((asc "ab", asc "c", asc "1") : Bytes × Bytes × Bytes) ≠
      (asc "a", asc "bc", asc "1") ∧
    digest32_preimage (asc "ab") (asc "c") (asc "1") [] =
      digest32_preimage (asc "a") (asc "bc") (asc "1") [] := by
  decide

/-- Claim C6 as amended: distinct triples can share a `digest32` preimage in
general, but for the repository's registered (domain, schema_id, version)
combinations — whose concatenated headers are pairwise non-prefix, as the
spec's registry rationale requires — no two distinct registered triples share
a preimage for any pair of messages. -/
theorem C6_registry_domain_separation :
    ∀ t1 ∈ registry_triples, ∀ t2 ∈ registry_triples, t1 ≠ t2 →
      ∀ b1 b2 : Bytes,
        digest32_preimage t1.1 t1.2.1 t1.2.2 b1 ≠
          digest32_preimage t2.1 t2.2.1 t2.2.2 b2 := by
  intro t1 h1 t2 h2 hne b1 b2 heq
  rw [digest32_preimage_header, digest32_preimage_header] at heq
  rcases Nat.le_total (triple_header t1).length (triple_header t2).length with
    hle | hle
  · exact registry_headers_separated t1 h1 t2 h2 hne
      (take_len_of_append_eq heq hle)
  · exact registry_headers_separated t2 h2 t1 h1 (Ne.symm hne)
      (take_len_of_append_eq heq.symm hle)

/-- Claim C6 witness: the amended theorem applied to two concrete registered
triples and empty messages. -/
theorem C6_registry_domain_separation_witness :
    digest32_preimage (asc "ucf-core") (asc "ucf.v1.ReasonCodes") (asc "1") [] ≠
      digest32_preimage (asc "ucf-core") (asc "ucf.v1.UcfEnvelope") (asc "1") [] :=
  C6_registry_domain_separation
    (asc "ucf-core", asc "ucf.v1.ReasonCodes", asc "1") (by decide)
    (asc "ucf-core", asc "ucf.v1.UcfEnvelope", asc "1") (by decide)
    (by decide) [] []

theorem varint_decode_encode (n : Nat) (rest : Bytes) :
    varint_decode (varint_encode n ++ rest) = some (n, rest) := by
  induction n using Nat.strong_induction_on generalizing rest with
  | _ n ih =>
    by_cases h : n < 128
    · rw [varint_encode]
      simp [h, varint_decode]
    · rw [varint_encode]
      simp only [h, dite_false, List.cons_append]
      rw [varint_decode]
      have hb : ¬ (n % 128 + 128 < 128) := by omega
      simp only [hb, if_false]
      rw [ih (n / 128) (Nat.div_lt_self (by omega) (by norm_num)) rest]
      simp only [Option.some.injEq, Prod.mk.injEq]
      exact ⟨by omega, trivial⟩

theorem decode_aux_encode (codes : List Bytes) :
    ∀ fuel, (canonical_bytes_reason_codes ⟨codes⟩).length ≤ fuel →
      decode_reason_codes_aux fuel (canonical_bytes_reason_codes ⟨codes⟩) =
        some codes := by
  induction codes with
  | nil =>
    intro fuel _
    simp [canonical_bytes_reason_codes]
    cases fuel <;> rfl
  | cons c cs ih =>
    intro fuel hfuel
    have henc : canonical_bytes_reason_codes ⟨c :: cs⟩ =
        10 :: (varint_encode c.length ++
          (c ++ canonical_bytes_reason_codes ⟨cs⟩)) := by
      simp [canonical_bytes_reason_codes, List.append_assoc]
    rw [henc] at hfuel ⊢
    cases fuel with
    | zero => simp at hfuel
    | succ f =>
      rw [decode_reason_codes_aux]
      simp only [if_pos rfl]
      rw [varint_decode_encode]
      have hlen : c.length ≤ (c ++ canonical_bytes_reason_codes ⟨cs⟩).length := by
        simp
      simp only [if_pos hlen]
      rw [List.take_left, List.drop_left]
      rw [ih f (by simp at hfuel; omega)]
      simp

theorem decode_encode_reason_codes (m : ReasonCodes) :
    decode_reason_codes (canonical_bytes_reason_codes m) = some m := by
  obtain ⟨codes⟩ := m
  rw [decode_reason_codes, decode_aux_encode codes _ (le_refl _)]
  rfl

/-- Claim C5: every byte string emitted by the conforming encoder decodes to
a typed record whose re-encoding is the original byte string —
`canonical_bytes (decode b) = b` (shown on the wire model of the
`ReasonCodes` record: the schema catalog producing the typed records is not
part of this repository's core sources). -/
theorem C5_canonical_round_trip (b : Bytes)
    (h : ∃ m, canonical_bytes_reason_codes m = b) :
    ∃ m2, decode_reason_codes b = some m2 ∧
      canonical_bytes_reason_codes m2 = b := by
  obtain ⟨m, rfl⟩ := h
  exact ⟨m, decode_encode_reason_codes m, rfl⟩

/-- Claim C5 witness: the round-trip theorem applied to the canonical bytes
of the reason-codes fixture value. -/
theorem C5_canonical_round_trip_witness :
    ∃ m2, decode_reason_codes (canonical_bytes_reason_codes
        ⟨[asc "deterministic", asc "coverage"]⟩) = some m2 ∧
      canonical_bytes_reason_codes m2 =
        canonical_bytes_reason_codes ⟨[asc "deterministic", asc "coverage"]⟩ :=
  C5_canonical_round_trip _ ⟨⟨[asc "deterministic", asc "coverage"]⟩, rfl⟩

end UCF
